import Mathlib

/-!
Verification of the generation-orchestration core of the Veo Studio app
(src/App.tsx and src/components/VideoResult.tsx).

The app code is shallowly embedded: React state setters become explicit
record updates on an `AppSt` value, the external collaborators
(window.aistudio, generateVideo, generateSpeech, JSON.parse, atob) become
an `Env` record carrying each call outcome for the attempt, and the pure
helpers (decodeAudioData, the aspect-ratio inference, the error
classifier) become pure Lean functions.  16-bit samples are exact
rationals: every int16 / 32768.0 is exactly representable in an IEEE
float32, so ℚ models the produced sample values faithfully.
-/

namespace VeoStudio

/-! ## String containment (JS String.prototype.includes) -/

/-- Character-list prefix test: `matchesAt needle hay` is true when `hay`
starts with `needle`. -/
def matchesAt : List Char → List Char → Bool
  | [], _ => true
  | _ :: _, [] => false
  | c :: cs, d :: ds => c == d && matchesAt cs ds

/-- Substring test on character lists, scanning every suffix of the
haystack. -/
def hasSub (needle : List Char) : List Char → Bool
  | [] => matchesAt needle []
  | d :: rest => matchesAt needle (d :: rest) || hasSub needle rest

/-- Model of JavaScript `hay.includes(needle)`. -/
def strIncludes (hay needle : String) : Bool :=
  hasSub needle.data hay.data

/-- Specification-side containment: `needle` occurs contiguously inside
`hay`.  Stated independently of the executable scan so that theorems about
marker detection are not restatements of the scanning code. -/
def specContains (hay needle : String) : Prop :=
  ∃ pre post, hay.data = pre ++ needle.data ++ post

/-- Model of JavaScript `String.prototype.toLowerCase` (ASCII range, which
is all the classifier needs). -/
def toLowerCase (s : String) : String :=
  ⟨s.data.map Char.toLower⟩

/-! ## Data model (src/types.ts is not in the repository snapshot; the
shapes below are reconstructed from every use site in src/App.tsx) -/

inductive GenerationMode
  | TEXT_TO_VIDEO
  | STORY_TO_VIDEO
  | EXTEND_VIDEO
deriving DecidableEq

inductive AspectRatio
  | PORTRAIT
  | LANDSCAPE
deriving DecidableEq

inductive Resolution
  | P720
  | P1080
deriving DecidableEq

inductive AppState
  | IDLE
  | LOADING
  | SUCCESS
  | ERROR
deriving DecidableEq

/-- A binary payload with a MIME type (the JS `Blob`). -/
structure Blob where
  data : String
  type : String
deriving DecidableEq

/-- The JS `File` built in handleExtend: a named blob. -/
structure FileModel where
  name : String
  content : String
  type : String
deriving DecidableEq

/-- The `VideoFile` attachment shape `\x7bfile, base64\x7d` used for the
input-video form field. -/
structure VideoFile where
  file : FileModel
  base64 : String
deriving DecidableEq

/-- The form/request payload `GenerateVideoParams`, reconstructed from the
fields App.tsx reads and writes. -/
structure GenerateVideoParams where
  mode : GenerationMode
  prompt : String
  aspectRatio : AspectRatio
  resolution : Resolution
  model : String
  inputVideo : Option VideoFile
  inputVideoObject : Option String
  startFrame : Option String
  endFrame : Option String
  referenceImages : List String
  styleImage : Option String
  isLooping : Bool
deriving DecidableEq

/-- The story script destructured from `JSON.parse(params.prompt)` in
story mode. -/
structure StoryScript where
  dialogue : String
  voice_tone : String
  image_prompt : String
deriving DecidableEq

/-- The resolved value of a successful `generateVideo` call. -/
structure VideoOutcome where
  objectUrl : String
  blob : Blob
  video : String
deriving DecidableEq

/-- A decoded playable audio buffer: sample rate plus one sample list per
channel (`ctx.createBuffer` is modelled as plain allocation). -/
structure AudioBufModel where
  sampleRate : Nat
  channelData : List (List ℚ)
deriving DecidableEq

/-! ## AudioDecoder (decodeAudioData in src/App.tsx lines 33-50) -/

/-- Reassemble one signed 16-bit little-endian sample from two bytes. -/
def toInt16 (lo hi : Nat) : Int :=
  let v := lo + 256 * hi
  if v < 32768 then (v : Int) else (v : Int) - 65536

/-- Interpretation of a byte list as little-endian int16 samples, the
effect of `new Int16Array(data.buffer)` on an even-length buffer. -/
def bytesToInt16LE : List Nat → List Int
  | lo :: hi :: rest => toInt16 lo hi :: bytesToInt16LE rest
  | _ => []

/-- Model of `decodeAudioData(data, ctx, sampleRate, numChannels)`.
Constructing `Int16Array` over an odd-length buffer throws a RangeError,
and `createBuffer` rejects a zero channel count, so those cases are
`none`.  `frameCount = dataInt16.length / numChannels` truncates (the JS
fractional loop writes its one extra, out-of-range frame into the void),
and each output sample is the interleaved input sample at
`i * numChannels + channel` divided by 32768.0. -/
def decodeAudioData (data : List Nat) (sampleRate : Nat) (numChannels : Nat) :
    Option AudioBufModel :=
  if data.length % 2 ≠ 0 then none
  else if numChannels = 0 then none
  else
    let dataInt16 := bytesToInt16LE data
    let frameCount := dataInt16.length / numChannels
    some ⟨sampleRate,
      (List.range numChannels).map (fun channel =>
        (List.range frameCount).map (fun i =>
          ((dataInt16.getD (i * numChannels + channel) 0 : Int) : ℚ) / 32768))⟩

/-! ## ErrorClassifier (catch block of handleGenerate, lines 161-191) -/

def modelNotFoundMessage : String :=
  "Model not found. This can be caused by an invalid API key or permission issues. Please check your API key."

def invalidKeyMessage : String :=
  "Your API key is invalid or lacks permissions. Please select a valid, billing-enabled API key."

/-- Rule-1 trigger: the raw message mentions the missing-entity error. -/
def mentionsEntityNotFound (errorMessage : String) : Bool :=
  strIncludes errorMessage "Requested entity was not found."

/-- Rule-2 trigger: invalid credential or (case-insensitively) permission
denied. -/
def mentionsAuthProblem (errorMessage : String) : Bool :=
  strIncludes errorMessage "API_KEY_INVALID" ||
  strIncludes errorMessage "API key not valid" ||
  strIncludes (toLowerCase errorMessage) "permission denied"

/-- The error classifier of handleGenerate: produces the user-facing
message and the `shouldOpenDialog` (credential-reselection) flag. -/
def classifyError (errorMessage : String) : String × Bool :=
  if mentionsEntityNotFound errorMessage then
    (modelNotFoundMessage, true)
  else if mentionsAuthProblem errorMessage then
    (invalidKeyMessage, true)
  else
    ("Video generation failed: " ++ errorMessage, false)

/-! ## Aspect-ratio inference (handleGenerate, lines 121-132) -/

/-- Story-mode aspect-ratio inference from the image-generation prompt:
portrait markers first, then landscape markers, else the requested
ratio. -/
def inferAspectRatio (image_prompt : String) (requested : AspectRatio) :
    AspectRatio :=
  if strIncludes image_prompt "9:16" || strIncludes image_prompt "vertical" then
    AspectRatio.PORTRAIT
  else if strIncludes image_prompt "16:9" || strIncludes image_prompt "landscape" then
    AspectRatio.LANDSCAPE
  else
    requested

/-! ## Session state (the React useState cells of App.tsx) -/

/-- The complete mutable state of the App component. -/
structure AppSt where
  appState : AppState
  videoUrl : Option String
  audioBuffer : Option AudioBufModel
  errorMessage : Option String
  lastConfig : Option GenerateVideoParams
  lastVideoObject : Option String
  lastVideoBlob : Option Blob
  showApiKeyDialog : Bool
  initialFormValues : Option GenerateVideoParams
deriving DecidableEq

/-- The initial state of the component. -/
def initialAppSt : AppSt :=
  ⟨AppState.IDLE, none, none, none, none, none, none, false, none⟩

/-- Outcomes of all external collaborator calls one generation attempt can
make.  `parseScript` is the result of `JSON.parse(params.prompt)` plus the
destructuring of its three fields; `speechCall` carries the byte payload
`decode(await generateSpeech(...))` (atob of the returned base64) or the
rejection message. -/
structure Env where
  aistudioPresent : Bool
  hasSelectedApiKey : Except String Bool
  parseScript : Except String StoryScript
  videoCall : Except String VideoOutcome
  speechCall : Except String (List Nat)

/-- Observable footprint of one attempt: which collaborator calls were
issued (with which arguments) and whether audio decoding was reached. -/
structure GenTrace where
  videoCallIssued : Option GenerateVideoParams
  speechCallIssued : Option (String × String)
  audioDecodeAttempted : Bool
deriving DecidableEq

/-- Trace of an attempt that issued nothing. -/
def emptyTrace : GenTrace :=
  ⟨none, none, false⟩

/-- The state updates handleGenerate performs after passing the credential
gate and before the attempt runs (lines 110-114): enter LOADING, clear the
error message, store the request, reset the form prefill.  The previously
displayed videoUrl and audioBuffer are left untouched. -/
def submitUpdates (params : GenerateVideoParams) (st : AppSt) : AppSt :=
  { st with
    appState := AppState.LOADING
    errorMessage := none
    lastConfig := some params
    initialFormValues := none }

/-- The body of the try block of handleGenerate: parse (story mode only),
infer the aspect ratio, issue the call(s), join, decode.  `Promise.all`
rejects as soon as either call rejects; with no timing in the model the
propagated reason is the video rejection when present, else the speech
rejection, which is one of the admissible interleavings. -/
def runAttempt (env : Env) (params : GenerateVideoParams) :
    GenTrace × Except String (VideoOutcome × Option AudioBufModel) :=
  if params.mode = GenerationMode.STORY_TO_VIDEO then
    match env.parseScript with
    | Except.error e => (emptyTrace, Except.error e)
    | Except.ok script =>
      let aspectRatio := inferAspectRatio script.image_prompt params.aspectRatio
      let videoParams :=
        { params with prompt := script.image_prompt, aspectRatio := aspectRatio }
      let issued : GenTrace :=
        ⟨some videoParams, some (script.dialogue, script.voice_tone), false⟩
      match env.videoCall, env.speechCall with
      | Except.ok videoResult, Except.ok audioBytes =>
        match decodeAudioData audioBytes 24000 1 with
        | some decodedBuffer =>
          ({ issued with audioDecodeAttempted := true },
           Except.ok (videoResult, some decodedBuffer))
        | none =>
          ({ issued with audioDecodeAttempted := true },
           Except.error "byte length of Int16Array should be a multiple of 2")
      | Except.error e, _ => (issued, Except.error e)
      | _, Except.error e => (issued, Except.error e)
  else
    let issued : GenTrace := ⟨some params, none, false⟩
    match env.videoCall with
    | Except.ok videoResult => (issued, Except.ok (videoResult, none))
    | Except.error e => (issued, Except.error e)

/-- handleGenerate after the credential gate: the submit updates, the
attempt, then either the success stores (audio buffer only in story mode,
then videoUrl, lastVideoBlob, lastVideoObject, SUCCESS) or the catch block
(classify, store the message, ERROR, open the dialog when flagged). -/
def handleGenerateBody (env : Env) (params : GenerateVideoParams) (st : AppSt) :
    AppSt × GenTrace :=
  let st1 := submitUpdates params st
  match runAttempt env params with
  | (trace, Except.ok (videoResult, audioOpt)) =>
    let st2 :=
      match audioOpt with
      | some decodedBuffer => { st1 with audioBuffer := some decodedBuffer }
      | none => st1
    ({ st2 with
        videoUrl := some videoResult.objectUrl
        lastVideoBlob := some videoResult.blob
        lastVideoObject := some videoResult.video
        appState := AppState.SUCCESS }, trace)
  | (trace, Except.error e) =>
    let classified := classifyError e
    ({ st1 with
        errorMessage := some classified.1
        appState := AppState.ERROR
        showApiKeyDialog := if classified.2 then true else st1.showApiKeyDialog },
     trace)

/-- handleGenerate (lines 93-192): the credential gate, then the body.
When window.aistudio is present and the key check returns false or
throws, only the key dialog is opened and the handler returns. -/
def handleGenerate (env : Env) (params : GenerateVideoParams) (st : AppSt) :
    AppSt × GenTrace :=
  if env.aistudioPresent then
    match env.hasSelectedApiKey with
    | Except.ok true => handleGenerateBody env params st
    | Except.ok false => ({ st with showApiKeyDialog := true }, emptyTrace)
    | Except.error _ => ({ st with showApiKeyDialog := true }, emptyTrace)
  else
    handleGenerateBody env params st

/-- handleRetry (lines 194-198): re-submit the stored last request
unchanged, or do nothing when none is stored. -/
def handleRetry (env : Env) (st : AppSt) : AppSt × GenTrace :=
  match st.lastConfig with
  | some lastConfig => handleGenerate env lastConfig st
  | none => (st, emptyTrace)

/-- handleNewVideo (lines 210-219): the plain reset, clearing every cell
except the key dialog flag. -/
def handleNewVideo (st : AppSt) : AppSt :=
  { st with
    appState := AppState.IDLE
    videoUrl := none
    audioBuffer := none
    errorMessage := none
    lastConfig := none
    lastVideoObject := none
    lastVideoBlob := none
    initialFormValues := none }

/-- handleTryAgainFromError (lines 221-230): when a last request exists,
re-enter IDLE with it as the form prefill and clear the error message;
otherwise fall back to handleNewVideo. -/
def handleTryAgainFromError (st : AppSt) : AppSt :=
  match st.lastConfig with
  | some lastConfig =>
    { st with
      initialFormValues := some lastConfig
      appState := AppState.IDLE
      errorMessage := none }
  | none => handleNewVideo st

/-- handleExtend (lines 232-266): when the last request, last video blob
and last video object are all present, derive the extend prefill request
and re-enter IDLE clearing the displayed result; otherwise do nothing. -/
def handleExtend (st : AppSt) : AppSt :=
  match st.lastConfig, st.lastVideoBlob, st.lastVideoObject with
  | some lastConfig, some lastVideoBlob, some lastVideoObject =>
    let file : FileModel := ⟨"last_video.mp4", lastVideoBlob.data, lastVideoBlob.type⟩
    let videoFile : VideoFile := ⟨file, ""⟩
    { st with
      initialFormValues := some
        { lastConfig with
          mode := GenerationMode.EXTEND_VIDEO
          prompt := ""
          inputVideo := some videoFile
          inputVideoObject := some lastVideoObject
          resolution := Resolution.P720
          startFrame := none
          endFrame := none
          referenceImages := []
          styleImage := none
          isLooping := false }
      appState := AppState.IDLE
      videoUrl := none
      audioBuffer := none
      errorMessage := none }
  | _, _, _ => st

/-! ## Render wiring (App.tsx return block and VideoResult.tsx) -/

/-- The canExtend gate passed to VideoResult:
`lastConfig?.resolution === Resolution.P720`. -/
def canExtend (st : AppSt) : Bool :=
  match st.lastConfig with
  | some lastConfig => lastConfig.resolution = Resolution.P720
  | none => false

/-- VideoResult (and with it its Retry button) renders exactly when the
app is in SUCCESS with a video URL present. -/
def retryButtonShown (st : AppSt) : Bool :=
  st.appState = AppState.SUCCESS && st.videoUrl.isSome

/-- The Extend button renders inside VideoResult behind the canExtend
gate. -/
def extendButtonShown (st : AppSt) : Bool :=
  retryButtonShown st && canExtend st

/-- handleApiKeyDialogContinue (lines 200-208): close the dialog, let the
user pick a key, and retry when sitting in ERROR with a stored request. -/
def handleApiKeyDialogContinue (env : Env) (st : AppSt) : AppSt × GenTrace :=
  let st1 := { st with showApiKeyDialog := false }
  if st.appState = AppState.ERROR ∧ st.lastConfig.isSome then
    handleRetry env st1
  else
    (st1, emptyTrace)

/-! ## Concrete sample data used by witnesses and counterexamples -/

def sampleScript : StoryScript :=
  ⟨"hello there", "calm", "a quiet street at dusk"⟩

def sampleStoryParams : GenerateVideoParams :=
  ⟨GenerationMode.STORY_TO_VIDEO, "story-script-json", AspectRatio.LANDSCAPE,
   Resolution.P720, "veo-3.0", none, none, none, none, [], none, false⟩

def sampleTextParams : GenerateVideoParams :=
  ⟨GenerationMode.TEXT_TO_VIDEO, "a red kite over the sea", AspectRatio.LANDSCAPE,
   Resolution.P720, "veo-3.0", none, none, none, none, [], none, false⟩

def sampleVideoOutcome : VideoOutcome :=
  ⟨"blob-url-1", ⟨"VID1", "video/mp4"⟩, "veo-op-1"⟩

def sampleVideoOutcome2 : VideoOutcome :=
  ⟨"blob-url-2", ⟨"VID2", "video/mp4"⟩, "veo-op-2"⟩

def envStoryOk : Env :=
  ⟨false, Except.ok true, Except.ok sampleScript, Except.ok sampleVideoOutcome,
   Except.ok [0, 0]⟩

def envStoryOk2 : Env :=
  ⟨false, Except.ok true, Except.ok sampleScript, Except.ok sampleVideoOutcome2,
   Except.ok [0, 0]⟩

def envStoryVideoFail : Env :=
  ⟨false, Except.ok true, Except.ok sampleScript, Except.error "boom",
   Except.ok [0, 0]⟩

def envStorySpeechFail : Env :=
  ⟨false, Except.ok true, Except.ok sampleScript, Except.ok sampleVideoOutcome,
   Except.error "speech boom"⟩

def envTextOk : Env :=
  ⟨false, Except.ok true, Except.error "not parsed", Except.ok sampleVideoOutcome2,
   Except.error "no speech call"⟩

def envGateNoKey : Env :=
  ⟨true, Except.ok false, Except.ok sampleScript, Except.ok sampleVideoOutcome,
   Except.ok [0, 0]⟩

def envGateThrow : Env :=
  ⟨true, Except.error "check failed", Except.ok sampleScript,
   Except.ok sampleVideoOutcome, Except.ok [0, 0]⟩

/-- Reachable trace, step 1: a StoryToVideo submit succeeds, so the app
sits in SUCCESS with a decoded audio buffer stored. -/
def staleSt1 : AppSt :=
  (handleGenerate envStoryOk sampleStoryParams initialAppSt).1

/-- Step 2: the Retry button on the result screen re-submits the story
request and the video call fails, moving to ERROR; the audio buffer is
not cleared. -/
def staleSt2 : AppSt :=
  (handleRetry envStoryVideoFail staleSt1).1

/-- Step 3: Try Again returns to IDLE with the form pre-filled; the stale
video URL and audio buffer are still stored. -/
def staleSt3 : AppSt :=
  handleTryAgainFromError staleSt2

/-- Step 4: a TextToVideo submit succeeds; the non-story success path
never touches the audio buffer, so the stale story audio survives into
the new SUCCESS state. -/
def staleSt4 : AppSt :=
  (handleGenerate envTextOk sampleTextParams staleSt3).1

/-! ## Helper lemmas -/

theorem matchesAt_iff (n : List Char) :
    ∀ h : List Char, matchesAt n h = true ↔ ∃ rest, h = n ++ rest := by
  induction n with
  | nil =>
    intro h
    simp [matchesAt]
  | cons c cs ih =>
    intro h
    cases h with
    | nil =>
      simp [matchesAt]
    | cons d ds =>
      simp only [matchesAt, Bool.and_eq_true, beq_iff_eq, ih, List.cons_append]
      constructor
      · rintro ⟨hcd, rest, hrest⟩
        exact ⟨rest, by rw [hcd, hrest]⟩
      · rintro ⟨rest, hrest⟩
        injection hrest with h1 h2
        exact ⟨h1.symm, rest, h2⟩

theorem hasSub_iff (n : List Char) :
    ∀ h : List Char, hasSub n h = true ↔ ∃ pre post, h = pre ++ n ++ post := by
  intro h
  induction h with
  | nil =>
    rw [hasSub, matchesAt_iff]
    constructor
    · rintro ⟨rest, hrest⟩
      exact ⟨[], rest, by simpa using hrest⟩
    · rintro ⟨pre, post, hpp⟩
      have hnil := List.append_eq_nil.mp (List.append_eq_nil.mp hpp.symm).1
      refine ⟨post, ?_⟩
      rw [hnil.2]
      simpa [hnil.1, hnil.2] using hpp
  | cons d ds ih =>
    rw [hasSub, Bool.or_eq_true, matchesAt_iff, ih]
    constructor
    · rintro (⟨rest, hrest⟩ | ⟨pre, post, hpp⟩)
      · exact ⟨[], rest, by simpa using hrest⟩
      · exact ⟨d :: pre, post, by simp [hpp]⟩
    · rintro ⟨pre, post, hpp⟩
      cases pre with
      | nil =>
        exact Or.inl ⟨post, by simpa using hpp⟩
      | cons p pre =>
        injection hpp with h1 h2
        exact Or.inr ⟨pre, post, h2⟩

/-- Bridge between specification-side containment and the executable
model of JavaScript includes. -/
theorem specContains_iff (hay needle : String) :
    specContains hay needle ↔ strIncludes hay needle = true := by
  rw [specContains, strIncludes, hasSub_iff]

theorem toInt16_bound (lo hi : Nat) (hlo : lo < 256) (hhi : hi < 256) :
    -32768 ≤ toInt16 lo hi ∧ toInt16 lo hi ≤ 32767 := by
  simp only [toInt16]
  split <;> omega

theorem bytesToInt16LE_length :
    ∀ l : List Nat, (bytesToInt16LE l).length = l.length / 2
  | [] => by simp [bytesToInt16LE]
  | [_] => by simp [bytesToInt16LE]
  | lo :: hi :: rest => by
    simp only [bytesToInt16LE, List.length_cons]
    rw [bytesToInt16LE_length rest]
    omega

theorem bytesToInt16LE_bound :
    ∀ l : List Nat, (∀ b ∈ l, b < 256) →
      ∀ x ∈ bytesToInt16LE l, -32768 ≤ x ∧ x ≤ 32767
  | [], _, x, hx => by simp [bytesToInt16LE] at hx
  | [_], _, x, hx => by simp [bytesToInt16LE] at hx
  | lo :: hi :: rest, hb, x, hx => by
    simp only [bytesToInt16LE, List.mem_cons] at hx
    rcases hx with rfl | hx
    · exact toInt16_bound lo hi (hb lo (by simp)) (hb hi (by simp))
    · exact bytesToInt16LE_bound rest (fun b hbm => hb b (by simp [hbm])) x hx

theorem int_list_getD_bound (l : List Int) (n : Nat)
    (hl : ∀ x ∈ l, -32768 ≤ x ∧ x ≤ 32767) :
    -32768 ≤ l.getD n 0 ∧ l.getD n 0 ≤ 32767 := by
  induction l generalizing n with
  | nil => cases n <;> simp [List.getD]
  | cons x xs ih =>
    cases n with
    | zero => exact hl x (by simp)
    | succ m =>
      exact ih m (fun y hy => hl y (by simp [hy]))

theorem range_map_getD {α : Type} (m : Nat) (f : Nat → α) (i : Nat) (d : α)
    (hi : i < m) :
    ((List.range m).map f).getD i d = f i := by
  rw [List.getD_eq_getElem?_getD, List.getElem?_map, List.getElem?_range hi]
  rfl

/-- Negative transfer: absence of spec-side containment forces the
executable includes test to return false. -/
theorem not_specContains (hay needle : String) (h : ¬ specContains hay needle) :
    strIncludes hay needle = false := by
  cases hb : strIncludes hay needle
  · rfl
  · exact absurd ((specContains_iff hay needle).mpr hb) h

/-! ## Claims -/

/-- C2: decoding a byte payload as signed 16-bit little-endian PCM with
channel count at least 1 yields, per channel, exactly
payload length / 2 / channels samples (trailing partial frame truncated),
the sample for frame i and channel c being the interleaved input sample
at index i * channels + c divided by 32768, and every sample lies in
[-1, 1]. -/
theorem decodeAudioData_spec (data : List Nat) (sampleRate numChannels : Nat)
    (hbytes : ∀ b ∈ data, b < 256) (hch : 1 ≤ numChannels)
    (heven : data.length % 2 = 0) :
    ∃ buf, decodeAudioData data sampleRate numChannels = some buf ∧
      buf.sampleRate = sampleRate ∧
      buf.channelData.length = numChannels ∧
      (∀ ch ∈ buf.channelData, ch.length = data.length / 2 / numChannels) ∧
      (∀ c, c < numChannels → ∀ i, i < data.length / 2 / numChannels →
        (buf.channelData.getD c []).getD i 0 =
          ((bytesToInt16LE data).getD (i * numChannels + c) 0 : ℚ) / 32768) ∧
      (∀ ch ∈ buf.channelData, ∀ q ∈ ch, -1 ≤ q ∧ q ≤ 1) := by
  have hS : (bytesToInt16LE data).length = data.length / 2 :=
    bytesToInt16LE_length data
  have hbound := bytesToInt16LE_bound data hbytes
  have hch0 : ¬ numChannels = 0 := by omega
  refine ⟨⟨sampleRate, (List.range numChannels).map (fun channel =>
      (List.range ((bytesToInt16LE data).length / numChannels)).map (fun i =>
        ((bytesToInt16LE data).getD (i * numChannels + channel) 0 : ℚ) / 32768))⟩,
    ?_, rfl, by simp, ?_, ?_, ?_⟩
  · rw [decodeAudioData, if_neg (by omega), if_neg hch0]
  · intro ch hmem
    rcases List.mem_map.mp hmem with ⟨c, _, rfl⟩
    simp [hS]
  · intro c hc i hi
    rw [hS] at *
    rw [range_map_getD numChannels _ c _ hc,
      range_map_getD (data.length / 2 / numChannels) _ i _ hi]
  · intro ch hmem q hq
    rcases List.mem_map.mp hmem with ⟨c, _, rfl⟩
    rcases List.mem_map.mp hq with ⟨i, _, rfl⟩
    have hx := int_list_getD_bound (bytesToInt16LE data)
      (i * numChannels + c) hbound
    constructor
    · rw [le_div_iff₀ (by norm_num : (0:ℚ) < 32768)]
      have hcast : (-32768 : ℚ) ≤
          ((bytesToInt16LE data).getD (i * numChannels + c) 0 : ℚ) := by
        exact_mod_cast hx.1
      linarith
    · rw [div_le_one (by norm_num : (0:ℚ) < 32768)]
      have hcast : ((bytesToInt16LE data).getD (i * numChannels + c) 0 : ℚ) ≤
          32767 := by
        exact_mod_cast hx.2
      linarith

/-- Witness for C2 at the concrete payload 0x1234, 0x8000, 0x7FFF with one
channel. -/
theorem decodeAudioData_spec_witness :
    (∀ b ∈ ([52, 18, 0, 128, 255, 127] : List Nat), b < 256) ∧
    1 ≤ 1 ∧
    ([52, 18, 0, 128, 255, 127] : List Nat).length % 2 = 0 ∧
    (∃ buf, decodeAudioData [52, 18, 0, 128, 255, 127] 24000 1 = some buf ∧
      buf.sampleRate = 24000 ∧
      buf.channelData.length = 1 ∧
      (∀ ch ∈ buf.channelData,
        ch.length = ([52, 18, 0, 128, 255, 127] : List Nat).length / 2 / 1) ∧
      (∀ c, c < 1 → ∀ i,
        i < ([52, 18, 0, 128, 255, 127] : List Nat).length / 2 / 1 →
        (buf.channelData.getD c []).getD i 0 =
          ((bytesToInt16LE [52, 18, 0, 128, 255, 127]).getD (i * 1 + c) 0 : ℚ) /
            32768) ∧
      (∀ ch ∈ buf.channelData, ∀ q ∈ ch, -1 ≤ q ∧ q ≤ 1)) :=
  ⟨by decide, by decide, by decide,
    decodeAudioData_spec [52, 18, 0, 128, 255, 127] 24000 1
      (by decide) (by decide) (by decide)⟩

/-- C3: for a StoryToVideo request whose script parses, the aspect ratio
of the issued video call is computed purely from the image prompt text:
portrait when it contains 9:16 or vertical anywhere (taking precedence
over any landscape marker), else landscape when it contains 16:9 or
landscape, else the aspect ratio already in the request; and the video
call is issued with exactly that inferred ratio and the image prompt. -/
theorem aspectRatioInference_spec (p : String) (ar : AspectRatio) (env : Env)
    (params : GenerateVideoParams) (script : StoryScript) :
    ((specContains p "9:16" ∨ specContains p "vertical") →
      inferAspectRatio p ar = AspectRatio.PORTRAIT) ∧
    (¬ (specContains p "9:16" ∨ specContains p "vertical") →
      (specContains p "16:9" ∨ specContains p "landscape") →
      inferAspectRatio p ar = AspectRatio.LANDSCAPE) ∧
    (¬ (specContains p "9:16" ∨ specContains p "vertical") →
      ¬ (specContains p "16:9" ∨ specContains p "landscape") →
      inferAspectRatio p ar = ar) ∧
    (params.mode = GenerationMode.STORY_TO_VIDEO →
      env.parseScript = Except.ok script →
      (runAttempt env params).1.videoCallIssued =
        some { params with
          prompt := script.image_prompt
          aspectRatio := inferAspectRatio script.image_prompt params.aspectRatio }) := by
  refine ⟨?_, ?_, ?_, ?_⟩
  · rintro (h | h) <;>
      simp [inferAspectRatio, (specContains_iff p _).mp h]
  · intro hnp hl
    have h1 : strIncludes p "9:16" = false :=
      not_specContains p _ (fun hc => hnp (Or.inl hc))
    have h2 : strIncludes p "vertical" = false :=
      not_specContains p _ (fun hc => hnp (Or.inr hc))
    rcases hl with h | h <;>
      simp [inferAspectRatio, h1, h2, (specContains_iff p _).mp h]
  · intro hnp hnl
    have h1 : strIncludes p "9:16" = false :=
      not_specContains p _ (fun hc => hnp (Or.inl hc))
    have h2 : strIncludes p "vertical" = false :=
      not_specContains p _ (fun hc => hnp (Or.inr hc))
    have h3 : strIncludes p "16:9" = false :=
      not_specContains p _ (fun hc => hnl (Or.inl hc))
    have h4 : strIncludes p "landscape" = false :=
      not_specContains p _ (fun hc => hnl (Or.inr hc))
    simp [inferAspectRatio, h1, h2, h3, h4]
  · intro hmode hparse
    cases hvideo : env.videoCall with
    | error e =>
      cases hspeech : env.speechCall with
      | error e2 => simp [runAttempt, hmode, hparse, hvideo, hspeech]
      | ok audioBytes => simp [runAttempt, hmode, hparse, hvideo, hspeech]
    | ok videoResult =>
      cases hspeech : env.speechCall with
      | error e2 => simp [runAttempt, hmode, hparse, hvideo, hspeech]
      | ok audioBytes =>
        cases hdec : decodeAudioData audioBytes 24000 1 with
        | none => simp [runAttempt, hmode, hparse, hvideo, hspeech, hdec]
        | some decodedBuffer =>
          simp [runAttempt, hmode, hparse, hvideo, hspeech, hdec]

/-- Witness for C3: a vertical prompt forces portrait, a 16:9 prompt
without portrait markers forces landscape, an unmarked prompt keeps the
request ratio, and the sample story attempt issues the video call with
the inferred ratio and the extracted image prompt. -/
theorem aspectRatioInference_witness :
    inferAspectRatio "make it vertical please" AspectRatio.LANDSCAPE =
      AspectRatio.PORTRAIT ∧
    inferAspectRatio "wide 16:9 shot" AspectRatio.PORTRAIT =
      AspectRatio.LANDSCAPE ∧
    inferAspectRatio "a quiet street at dusk" AspectRatio.LANDSCAPE =
      AspectRatio.LANDSCAPE ∧
    (runAttempt envStoryOk sampleStoryParams).1.videoCallIssued =
      some { sampleStoryParams with
        prompt := sampleScript.image_prompt
        aspectRatio :=
          inferAspectRatio sampleScript.image_prompt
            sampleStoryParams.aspectRatio } := by
  have hnp1 : ¬ (specContains "wide 16:9 shot" "9:16" ∨
      specContains "wide 16:9 shot" "vertical") := by
    rintro (h | h) <;>
      exact absurd ((specContains_iff _ _).mp h) (by decide)
  have hnp2 : ¬ (specContains "a quiet street at dusk" "9:16" ∨
      specContains "a quiet street at dusk" "vertical") := by
    rintro (h | h) <;>
      exact absurd ((specContains_iff _ _).mp h) (by decide)
  have hnl2 : ¬ (specContains "a quiet street at dusk" "16:9" ∨
      specContains "a quiet street at dusk" "landscape") := by
    rintro (h | h) <;>
      exact absurd ((specContains_iff _ _).mp h) (by decide)
  exact ⟨(aspectRatioInference_spec "make it vertical please"
        AspectRatio.LANDSCAPE envStoryOk sampleStoryParams sampleScript).1
      (Or.inr ⟨"make it ".data, " please".data, rfl⟩),
    (aspectRatioInference_spec "wide 16:9 shot" AspectRatio.PORTRAIT
        envStoryOk sampleStoryParams sampleScript).2.1 hnp1
      (Or.inl ⟨"wide ".data, " shot".data, rfl⟩),
    (aspectRatioInference_spec "a quiet street at dusk" AspectRatio.LANDSCAPE
        envStoryOk sampleStoryParams sampleScript).2.2.1 hnp2 hnl2,
    (aspectRatioInference_spec "" AspectRatio.LANDSCAPE envStoryOk
        sampleStoryParams sampleScript).2.2.2 rfl rfl⟩

/-- C5: the classifier applies its rules in order with first match
winning: an entity-not-found message yields the model-unavailable text
with the reselection flag set; otherwise an invalid-credential or
case-insensitive permission-denied message yields the billing-enabled
credential request with the flag set; otherwise the raw message is
wrapped verbatim behind the generation-failed prefix with the flag
clear. -/
theorem classifyError_spec (m : String) :
    (specContains m "Requested entity was not found." →
      classifyError m = (modelNotFoundMessage, true)) ∧
    (¬ specContains m "Requested entity was not found." →
      (specContains m "API_KEY_INVALID" ∨ specContains m "API key not valid" ∨
        specContains (toLowerCase m) "permission denied") →
      classifyError m = (invalidKeyMessage, true)) ∧
    (¬ specContains m "Requested entity was not found." →
      ¬ (specContains m "API_KEY_INVALID" ∨ specContains m "API key not valid" ∨
        specContains (toLowerCase m) "permission denied") →
      classifyError m = ("Video generation failed: " ++ m, false)) := by
  refine ⟨?_, ?_, ?_⟩
  · intro h
    simp [classifyError, mentionsEntityNotFound, (specContains_iff m _).mp h]
  · intro hne hauth
    have h1 : strIncludes m "Requested entity was not found." = false :=
      not_specContains m _ hne
    rcases hauth with h | h | h <;>
      simp [classifyError, mentionsEntityNotFound, mentionsAuthProblem, h1,
        (specContains_iff _ _).mp h]
  · intro hne hauth
    have h1 : strIncludes m "Requested entity was not found." = false :=
      not_specContains m _ hne
    have h2 : strIncludes m "API_KEY_INVALID" = false :=
      not_specContains m _ (fun hc => hauth (Or.inl hc))
    have h3 : strIncludes m "API key not valid" = false :=
      not_specContains m _ (fun hc => hauth (Or.inr (Or.inl hc)))
    have h4 : strIncludes (toLowerCase m) "permission denied" = false :=
      not_specContains _ _ (fun hc => hauth (Or.inr (Or.inr hc)))
    simp [classifyError, mentionsEntityNotFound, mentionsAuthProblem,
      h1, h2, h3, h4]

/-- Witness for C5 at three concrete raw messages, one per rule. -/
theorem classifyError_witness :
    classifyError "Requested entity was not found. API_KEY_INVALID" =
      (modelNotFoundMessage, true) ∧
    classifyError "upstream said PERMISSION DENIED today" =
      (invalidKeyMessage, true) ∧
    classifyError "boom" = ("Video generation failed: " ++ "boom", false) := by
  have hne2 : ¬ specContains "upstream said PERMISSION DENIED today"
      "Requested entity was not found." := by
    intro h
    exact absurd ((specContains_iff _ _).mp h) (by decide)
  have hne3 : ¬ specContains "boom" "Requested entity was not found." := by
    intro h
    exact absurd ((specContains_iff _ _).mp h) (by decide)
  have hauth3 : ¬ (specContains "boom" "API_KEY_INVALID" ∨
      specContains "boom" "API key not valid" ∨
      specContains (toLowerCase "boom") "permission denied") := by
    rintro (h | h | h) <;>
      exact absurd ((specContains_iff _ _).mp h) (by decide)
  exact ⟨(classifyError_spec "Requested entity was not found. API_KEY_INVALID").1
      ⟨[], " API_KEY_INVALID".data, rfl⟩,
    (classifyError_spec "upstream said PERMISSION DENIED today").2.1 hne2
      (Or.inr (Or.inr ⟨"upstream said ".data, " today".data, by decide⟩)),
    (classifyError_spec "boom").2.2 hne3 hauth3⟩

/-- C1: in a StoryToVideo attempt whose script parsed, both calls are
issued, and if either rejects the attempt fails as a whole: no decoding
is attempted, the successful outcome is discarded (videoUrl, audioBuffer,
lastVideoBlob and lastVideoObject keep their pre-attempt values), and the
session enters ERROR carrying the classified message of a rejection. -/
theorem storyJoinFailure_spec (env : Env) (params : GenerateVideoParams)
    (st : AppSt) (script : StoryScript)
    (hmode : params.mode = GenerationMode.STORY_TO_VIDEO)
    (hparse : env.parseScript = Except.ok script)
    (hfail : (∃ e, env.videoCall = Except.error e) ∨
      (∃ e, env.speechCall = Except.error e)) :
    (handleGenerateBody env params st).2.videoCallIssued.isSome = true ∧
    (handleGenerateBody env params st).2.speechCallIssued =
      some (script.dialogue, script.voice_tone) ∧
    (handleGenerateBody env params st).2.audioDecodeAttempted = false ∧
    (handleGenerateBody env params st).1.appState = AppState.ERROR ∧
    (∃ raw, (env.videoCall = Except.error raw ∨ env.speechCall = Except.error raw) ∧
      (handleGenerateBody env params st).1.errorMessage =
        some (classifyError raw).1) ∧
    (handleGenerateBody env params st).1.videoUrl = st.videoUrl ∧
    (handleGenerateBody env params st).1.audioBuffer = st.audioBuffer ∧
    (handleGenerateBody env params st).1.lastVideoObject = st.lastVideoObject ∧
    (handleGenerateBody env params st).1.lastVideoBlob = st.lastVideoBlob := by
  cases hvideo : env.videoCall with
  | error e =>
    refine ⟨?_, ?_, ?_, ?_, ⟨e, Or.inl rfl, ?_⟩, ?_, ?_, ?_, ?_⟩ <;>
      simp [handleGenerateBody, runAttempt, submitUpdates, hmode, hparse, hvideo]
  | ok videoResult =>
    have hsp : ∃ e, env.speechCall = Except.error e := by
      rcases hfail with ⟨e, he⟩ | h
      · rw [hvideo] at he
        cases he
      · exact h
    rcases hsp with ⟨e, hspeech⟩
    refine ⟨?_, ?_, ?_, ?_, ⟨e, Or.inr hspeech, ?_⟩, ?_, ?_, ?_, ?_⟩ <;>
      simp [handleGenerateBody, runAttempt, submitUpdates, hmode, hparse,
        hvideo, hspeech]

/-- Witness for C1: the sample story attempt in which the video call
rejects with boom while the speech call succeeds. -/
theorem storyJoinFailure_witness :
    (handleGenerateBody envStoryVideoFail sampleStoryParams
        initialAppSt).2.videoCallIssued.isSome = true ∧
    (handleGenerateBody envStoryVideoFail sampleStoryParams
        initialAppSt).2.speechCallIssued =
      some (sampleScript.dialogue, sampleScript.voice_tone) ∧
    (handleGenerateBody envStoryVideoFail sampleStoryParams
        initialAppSt).2.audioDecodeAttempted = false ∧
    (handleGenerateBody envStoryVideoFail sampleStoryParams
        initialAppSt).1.appState = AppState.ERROR ∧
    (∃ raw, (envStoryVideoFail.videoCall = Except.error raw ∨
        envStoryVideoFail.speechCall = Except.error raw) ∧
      (handleGenerateBody envStoryVideoFail sampleStoryParams
          initialAppSt).1.errorMessage = some (classifyError raw).1) ∧
    (handleGenerateBody envStoryVideoFail sampleStoryParams
        initialAppSt).1.videoUrl = initialAppSt.videoUrl ∧
    (handleGenerateBody envStoryVideoFail sampleStoryParams
        initialAppSt).1.audioBuffer = initialAppSt.audioBuffer ∧
    (handleGenerateBody envStoryVideoFail sampleStoryParams
        initialAppSt).1.lastVideoObject = initialAppSt.lastVideoObject ∧
    (handleGenerateBody envStoryVideoFail sampleStoryParams
        initialAppSt).1.lastVideoBlob = initialAppSt.lastVideoBlob :=
  storyJoinFailure_spec envStoryVideoFail sampleStoryParams initialAppSt
    sampleScript rfl rfl (Or.inl ⟨"boom", rfl⟩)

/-- C4 (code bug): the audio buffer set by a successful StoryToVideo
attempt survives a failed retry, the try-again return to the form, and a
subsequent successful TextToVideo submit, so the app reaches SUCCESS
displaying a TextToVideo result while the stale story audio buffer is
still non-null. -/
theorem staleAudioBuffer_bug :
    staleSt1.appState = AppState.SUCCESS ∧
    staleSt1.audioBuffer.isSome = true ∧
    staleSt2.appState = AppState.ERROR ∧
    staleSt2.audioBuffer.isSome = true ∧
    staleSt3.appState = AppState.IDLE ∧
    staleSt3.audioBuffer.isSome = true ∧
    staleSt4.appState = AppState.SUCCESS ∧
    staleSt4.lastConfig = some sampleTextParams ∧
    sampleTextParams.mode = GenerationMode.TEXT_TO_VIDEO ∧
    staleSt4.audioBuffer.isSome = true := by
  decide

/-- C6: with a stored last request, blob and video handle, the extend
action derives a prefill request in EXTEND_VIDEO mode with cleared
prompt, the aspect ratio and model selection carried over, resolution
forced to 720p, the prior payload wrapped as the input-video file, the
prior handle attached, and every other media attachment and the loop
flag reset. -/
theorem handleExtend_spec (st : AppSt) (cfg : GenerateVideoParams)
    (blob : Blob) (vid : String)
    (hc : st.lastConfig = some cfg) (hb : st.lastVideoBlob = some blob)
    (hv : st.lastVideoObject = some vid) :
    ∃ form, (handleExtend st).initialFormValues = some form ∧
      form.mode = GenerationMode.EXTEND_VIDEO ∧
      form.prompt = "" ∧
      form.aspectRatio = cfg.aspectRatio ∧
      form.model = cfg.model ∧
      form.resolution = Resolution.P720 ∧
      form.inputVideo = some ⟨⟨"last_video.mp4", blob.data, blob.type⟩, ""⟩ ∧
      form.inputVideoObject = some vid ∧
      form.startFrame = none ∧
      form.endFrame = none ∧
      form.referenceImages = [] ∧
      form.styleImage = none ∧
      form.isLooping = false ∧
      (handleExtend st).appState = AppState.IDLE ∧
      (handleExtend st).videoUrl = none ∧
      (handleExtend st).audioBuffer = none ∧
      (handleExtend st).errorMessage = none := by
  refine ⟨{ cfg with
      mode := GenerationMode.EXTEND_VIDEO
      prompt := ""
      inputVideo := some ⟨⟨"last_video.mp4", blob.data, blob.type⟩, ""⟩
      inputVideoObject := some vid
      resolution := Resolution.P720
      startFrame := none
      endFrame := none
      referenceImages := []
      styleImage := none
      isLooping := false }, ?_, by simp, by simp, by simp, by simp, by simp,
    by simp, by simp, by simp, by simp, by simp, by simp, by simp,
    ?_, ?_, ?_, ?_⟩ <;>
    simp [handleExtend, hc, hb, hv]

/-- Witness for C6 at the stored story success state. -/
theorem handleExtend_witness :
    ∃ form, (handleExtend staleSt1).initialFormValues = some form ∧
      form.mode = GenerationMode.EXTEND_VIDEO ∧
      form.prompt = "" ∧
      form.aspectRatio = sampleStoryParams.aspectRatio ∧
      form.model = sampleStoryParams.model ∧
      form.resolution = Resolution.P720 ∧
      form.inputVideo = some ⟨⟨"last_video.mp4", "VID1", "video/mp4"⟩, ""⟩ ∧
      form.inputVideoObject = some "veo-op-1" ∧
      form.startFrame = none ∧
      form.endFrame = none ∧
      form.referenceImages = [] ∧
      form.styleImage = none ∧
      form.isLooping = false ∧
      (handleExtend staleSt1).appState = AppState.IDLE ∧
      (handleExtend staleSt1).videoUrl = none ∧
      (handleExtend staleSt1).audioBuffer = none ∧
      (handleExtend staleSt1).errorMessage = none :=
  handleExtend_spec staleSt1 sampleStoryParams ⟨"VID1", "video/mp4"⟩ "veo-op-1"
    (by decide) (by decide) (by decide)

/-- C7 counterexample: in the reachable IDLE state staleSt3 a displayed
result (video URL and audio buffer) is still stored, and submitting a
TextToVideo request clears neither before the attempt runs nor, for the
audio buffer, after it succeeds. -/
theorem submitClears_counterexample :
    staleSt3.appState = AppState.IDLE ∧
    staleSt3.videoUrl = some "blob-url-1" ∧
    staleSt3.audioBuffer.isSome = true ∧
    (submitUpdates sampleTextParams staleSt3).appState = AppState.LOADING ∧
    (submitUpdates sampleTextParams staleSt3).videoUrl = some "blob-url-1" ∧
    (submitUpdates sampleTextParams staleSt3).audioBuffer.isSome = true ∧
    (handleGenerate envTextOk sampleTextParams staleSt3).1.audioBuffer.isSome =
      true := by
  decide

/-- C7 (amended): a submit that passes the credential gate runs the
attempt body; the pre-attempt updates move the session to LOADING, store
the request as last request, clear the error message and reset the form
prefill, while the previously displayed video URL and audio buffer are
left in place. -/
theorem submit_spec (env : Env) (params : GenerateVideoParams) (st : AppSt)
    (hgate : env.aistudioPresent = false ∨
      env.hasSelectedApiKey = Except.ok true) :
    handleGenerate env params st = handleGenerateBody env params st ∧
    submitUpdates params st =
      { st with
        appState := AppState.LOADING
        errorMessage := none
        lastConfig := some params
        initialFormValues := none } ∧
    (submitUpdates params st).videoUrl = st.videoUrl ∧
    (submitUpdates params st).audioBuffer = st.audioBuffer := by
  refine ⟨?_, rfl, rfl, rfl⟩
  rcases hgate with h | h <;> simp [handleGenerate, h]

/-- Witness for C7 (amended) at the reachable state staleSt3. -/
theorem submit_spec_witness :
    (envTextOk.aistudioPresent = false ∨
      envTextOk.hasSelectedApiKey = Except.ok true) ∧
    (handleGenerate envTextOk sampleTextParams staleSt3 =
      handleGenerateBody envTextOk sampleTextParams staleSt3 ∧
    submitUpdates sampleTextParams staleSt3 =
      { staleSt3 with
        appState := AppState.LOADING
        errorMessage := none
        lastConfig := some sampleTextParams
        initialFormValues := none } ∧
    (submitUpdates sampleTextParams staleSt3).videoUrl = staleSt3.videoUrl ∧
    (submitUpdates sampleTextParams staleSt3).audioBuffer =
      staleSt3.audioBuffer) :=
  ⟨Or.inl rfl,
    submit_spec envTextOk sampleTextParams staleSt3 (Or.inl rfl)⟩

/-- C8 counterexample: the reachable SUCCESS state staleSt1 shows the
Retry control and invoking it re-runs the stored request, observably
changing the state, so retry is not restricted to Error or Loading. -/
theorem retryFromSuccess_counterexample :
    retryButtonShown staleSt1 = true ∧
    staleSt1.appState = AppState.SUCCESS ∧
    staleSt1.lastConfig = some sampleStoryParams ∧
    handleRetry envStoryOk2 staleSt1 =
      handleGenerate envStoryOk2 sampleStoryParams staleSt1 ∧
    (handleRetry envStoryOk2 staleSt1).1.videoUrl = some "blob-url-2" ∧
    staleSt1.videoUrl = some "blob-url-1" := by
  have hc : staleSt1.lastConfig = some sampleStoryParams := by decide
  refine ⟨by decide, by decide, hc, ?_, by decide, by decide⟩
  simp [handleRetry, hc]

/-- C8 (amended): the Retry control appears exactly on the SUCCESS result
screen and re-submits the stored last request unchanged (retry is also
triggered from ERROR by the credential-dialog continue path); retry
without a stored request and extend without the full stored
request/blob/handle are no-ops; the Extend control appears only in
SUCCESS behind the canExtend gate, which demands a stored request at the
720p tier. -/
theorem sessionTransitions_spec :
    (∀ st, retryButtonShown st = true →
      st.appState = AppState.SUCCESS ∧ st.videoUrl.isSome = true) ∧
    (∀ env st, st.lastConfig = none → handleRetry env st = (st, emptyTrace)) ∧
    (∀ env st cfg, st.lastConfig = some cfg →
      handleRetry env st = handleGenerate env cfg st) ∧
    (∀ env st, ¬ (st.appState = AppState.ERROR ∧ st.lastConfig.isSome = true) →
      handleApiKeyDialogContinue env st =
        ({ st with showApiKeyDialog := false }, emptyTrace)) ∧
    (∀ st, st.lastConfig = none ∨ st.lastVideoBlob = none ∨
        st.lastVideoObject = none →
      handleExtend st = st) ∧
    (∀ st, extendButtonShown st = true →
      st.appState = AppState.SUCCESS ∧ canExtend st = true) ∧
    (∀ st cfg, st.lastConfig = some cfg → canExtend st = true →
      cfg.resolution = Resolution.P720) := by
  refine ⟨?_, ?_, ?_, ?_, ?_, ?_, ?_⟩
  · intro st h
    simp only [retryButtonShown, Bool.and_eq_true, decide_eq_true_eq] at h
    exact h
  · intro env st h
    simp [handleRetry, h]
  · intro env st cfg h
    simp [handleRetry, h]
  · intro env st h
    simp [handleApiKeyDialogContinue, h]
  · intro st h
    rcases h with h | h | h <;>
      · unfold handleExtend
        cases hc : st.lastConfig <;> cases hb : st.lastVideoBlob <;>
          cases hv : st.lastVideoObject <;>
          simp_all
  · intro st h
    simp only [extendButtonShown, retryButtonShown, Bool.and_eq_true,
      decide_eq_true_eq] at h
    exact ⟨h.1.1, h.2⟩
  · intro st cfg hc h
    simp only [canExtend, hc, decide_eq_true_eq] at h
    exact h

/-- Witness for C8 (amended) at concrete states: the fresh state has no
stored request so retry and extend are no-ops there, and the stored
story success state satisfies the gate facts. -/
theorem sessionTransitions_witness :
    (retryButtonShown staleSt1 = true →
      staleSt1.appState = AppState.SUCCESS ∧ staleSt1.videoUrl.isSome = true) ∧
    handleRetry envStoryOk initialAppSt = (initialAppSt, emptyTrace) ∧
    handleRetry envStoryOk2 staleSt1 =
      handleGenerate envStoryOk2 sampleStoryParams staleSt1 ∧
    handleApiKeyDialogContinue envStoryOk initialAppSt =
      ({ initialAppSt with showApiKeyDialog := false }, emptyTrace) ∧
    handleExtend initialAppSt = initialAppSt ∧
    (extendButtonShown staleSt1 = true →
      staleSt1.appState = AppState.SUCCESS ∧ canExtend staleSt1 = true) ∧
    sampleStoryParams.resolution = Resolution.P720 :=
  ⟨sessionTransitions_spec.1 staleSt1,
    sessionTransitions_spec.2.1 envStoryOk initialAppSt rfl,
    sessionTransitions_spec.2.2.1 envStoryOk2 staleSt1 sampleStoryParams
      (by decide),
    sessionTransitions_spec.2.2.2.1 envStoryOk initialAppSt (by decide),
    sessionTransitions_spec.2.2.2.2.1 initialAppSt (Or.inl rfl),
    sessionTransitions_spec.2.2.2.2.2.1 staleSt1,
    sessionTransitions_spec.2.2.2.2.2.2 staleSt1 sampleStoryParams (by decide)
      (by decide)⟩

/-- C9: from any state, the try-again action with a stored last request
re-enters IDLE carrying that request as the form prefill and clears only
the error message, leaving the stored request in place; with no stored
request it behaves as the plain reset, clearing all stored request,
result and error data. -/
theorem tryAgain_spec (st : AppSt) (cfg : GenerateVideoParams) :
    (st.lastConfig = some cfg →
      handleTryAgainFromError st =
        { st with
          initialFormValues := some cfg
          appState := AppState.IDLE
          errorMessage := none }) ∧
    (st.lastConfig = none →
      handleTryAgainFromError st =
        { st with
          appState := AppState.IDLE
          videoUrl := none
          audioBuffer := none
          errorMessage := none
          lastConfig := none
          lastVideoObject := none
          lastVideoBlob := none
          initialFormValues := none }) := by
  constructor
  · intro h
    simp [handleTryAgainFromError, h]
  · intro h
    simp [handleTryAgainFromError, handleNewVideo, h]

/-- Witness for C9: the error state of the stale trace carries the story
request into the prefill, and the fresh state resets plainly. -/
theorem tryAgain_witness :
    handleTryAgainFromError staleSt2 =
      { staleSt2 with
        initialFormValues := some sampleStoryParams
        appState := AppState.IDLE
        errorMessage := none } ∧
    handleTryAgainFromError initialAppSt =
      { initialAppSt with
        appState := AppState.IDLE
        videoUrl := none
        audioBuffer := none
        errorMessage := none
        lastConfig := none
        lastVideoObject := none
        lastVideoBlob := none
        initialFormValues := none } :=
  ⟨(tryAgain_spec staleSt2 sampleStoryParams).1 (by decide),
    (tryAgain_spec initialAppSt sampleStoryParams).2 rfl⟩

/-- C10: when window.aistudio is present and the key check returns false
or throws, the submit handler only opens the credential dialog: no call
is issued (the trace is empty) and every other state cell, including the
app state, last request, last result and error message, is unchanged. -/
theorem credentialGate_spec (env : Env) (params : GenerateVideoParams)
    (st : AppSt) (hp : env.aistudioPresent = true)
    (hk : env.hasSelectedApiKey ≠ Except.ok true) :
    handleGenerate env params st =
      ({ st with showApiKeyDialog := true }, emptyTrace) := by
  rw [handleGenerate, if_pos hp]
  cases hcheck : env.hasSelectedApiKey with
  | error e => rfl
  | ok b =>
    cases b
    · rfl
    · exact absurd hcheck hk

/-- Witness for C10 at the no-key and throwing key checks from the fresh
IDLE state. -/
theorem credentialGate_witness :
    envGateNoKey.aistudioPresent = true ∧
    envGateNoKey.hasSelectedApiKey ≠ Except.ok true ∧
    handleGenerate envGateNoKey sampleTextParams initialAppSt =
      ({ initialAppSt with showApiKeyDialog := true }, emptyTrace) ∧
    handleGenerate envGateThrow sampleTextParams initialAppSt =
      ({ initialAppSt with showApiKeyDialog := true }, emptyTrace) :=
  ⟨rfl, by simp [envGateNoKey],
    credentialGate_spec envGateNoKey sampleTextParams initialAppSt rfl
      (by simp [envGateNoKey]),
    credentialGate_spec envGateThrow sampleTextParams initialAppSt rfl
      (by simp [envGateThrow])⟩

end VeoStudio
